import Mathlib

/-!
Verification of the `ChatPanel` component (src/components/ChatPanel.tsx).

The component is a persona chat overlay: `initChat` opens a session against
the external generative service and seeds the transcript with the hook, and
`handleSend` submits the trimmed input, appending the user turn synchronously
and a persona turn once the service call resolves (with fixed fallback
strings for empty responses and failures).

The embedding splits `handleSend` at its single `await` point:
`handleSendSync` is the synchronous prefix (guard, input clear, user-turn
append, typing flag, request construction) and `handleSendResume` is the
continuation (try/catch body after the await, plus the `finally` block).
`handleSend` composes the two given the service outcome of the one request.
-/

namespace ChatPanel

/-- Speaker of a transcript turn: `user` or `model` (the persona),
mirroring the `role` field of the component's message objects. -/
inductive Role where
  | user
  | model
deriving DecidableEq, Repr

/-- One transcript entry: `{ role, text }` in the source. -/
structure Turn where
  role : Role
  text : String
deriving DecidableEq, Repr

/-- The two legal values of the `character` prop
(`'Priyank' | 'Arzoo'` in the source). -/
inductive Character where
  | Priyank
  | Arzoo
deriving DecidableEq, Repr

/-- Interpolated value of the `character` prop in template strings. -/
def Character.displayName : Character → String
  | .Priyank => "Priyank"
  | .Arzoo => "Arzoo"

/-- The persona voice description chosen by the conditional
`character === 'Priyank' ? ... : ...` inside the system instruction. -/
def personaDescription : Character → String
  | .Priyank => "He is the male lead. Charming, witty, but currently caught in a dilemma. Speaks in a casual, modern \"best friend\" tone."
  | .Arzoo => "She is the female lead. Observant, mysterious, and slightly guarded. Speaks with more depth and often asks the user for their intuition or advice."

/-- The `systemInstruction` template literal built inside `initChat`,
a function of the `character` and `episodeLabel` props only. -/
def buildSystemInstruction (character : Character) (episodeLabel : String) : String :=
  "You are the \"Live Narrative Engine\" for the app PLIVE TV. You power an interactive roleplay feature for the series \"Heart Beats.\" \n      Goal: Make the user feel like they are a hidden character inside the episode.\n      Persona - "
    ++ character.displayName
    ++ ": \n      "
    ++ personaDescription character
    ++ "\n      Rules:\n      1. Stay in Persona: Never break character. You ARE "
    ++ character.displayName
    ++ ".\n      2. Context Awareness: You are reacting to "
    ++ episodeLabel
    ++ " of \"Heart Beats\".\n      3. Keep it Snappy: Responses must be 1-2 short sentences.\n      4. Drive Action: Always end your messages with a question that forces the user to make a choice or give advice."

/-- The conversational session handle produced by `ai.chats.create`:
the component parameterizes it by the model identifier and the composed
system instruction. -/
structure Session where
  model : String
  systemInstruction : String
deriving DecidableEq, Repr

/-- The argument of `chatInstance.current.sendMessage({ message: userText })`. -/
structure SendMessageParams where
  message : String
deriving DecidableEq, Repr

/-- The service response: `result.text` may be absent (`undefined`), which
together with the empty string is falsy in `result.text || ...`. -/
structure GenerateContentResponse where
  text : Option String
deriving DecidableEq, Repr

/-- Outcome of the awaited `sendMessage` call: it resolves with a response
or rejects with some error (the component inspects nothing about the error). -/
inductive ServiceResult where
  | ok (response : GenerateContentResponse)
  | error
deriving DecidableEq, Repr

/-- The component state touched by the logic under verification:
`messages` (the transcript), `inputValue` (the input buffer),
`isTyping` (the typing indicator) and `chatInstance` (the session ref,
`null` before initialization). -/
structure ChatState where
  messages : List Turn
  inputValue : String
  isTyping : Bool
  chatInstance : Option Session
deriving DecidableEq, Repr

/-- JavaScript `String.prototype.trim`: strip whitespace from both ends.
Embedded over the character list so that the kernel can evaluate it on
concrete inputs. -/
def jsTrim (s : String) : String :=
  String.mk (((s.data.dropWhile Char.isWhitespace).reverse.dropWhile Char.isWhitespace).reverse)

/-- The fixed fallback appended when `sendMessage` rejects. -/
def errorFallback : String := "Something went wrong. Let's try that again."

/-- The fixed filler substituted when `result.text` is empty or absent. -/
def emptyFallback : String := "I'm not sure how to respond to that..."

/-- `initChat`: creates a fresh session from the props and resets the
transcript to the single hook turn
(`setMessages([{ role: 'model', text: initialHook }])`).
It touches no other state. -/
def initChat (character : Character) (episodeLabel initialHook : String)
    (s : ChatState) : ChatState :=
  { s with
    chatInstance := some
      { model := "gemini-3-flash-preview"
        systemInstruction := buildSystemInstruction character episodeLabel }
    messages := [{ role := Role.model, text := initialHook }] }

/-- The synchronous prefix of `handleSend`, up to the `await`:
the guard `if (!inputValue.trim() || !chatInstance.current) return;`,
then clearing the input, appending the user turn, setting the typing
indicator, and forming the request. Returns the updated state and the
request to issue (`none` when the guard fired and nothing happens). -/
def handleSendSync (s : ChatState) : ChatState × Option SendMessageParams :=
  if (jsTrim s.inputValue).isEmpty || s.chatInstance.isNone then
    (s, none)
  else
    let userText := jsTrim s.inputValue
    ({ s with
        inputValue := ""
        messages := s.messages ++ [{ role := Role.user, text := userText }]
        isTyping := true },
      some { message := userText })

/-- The continuation of `handleSend` after the `await`: on resolution,
append a model turn with `result.text || emptyFallback`; on rejection,
append a model turn with `errorFallback` (the error is swallowed); in
both cases the `finally` block clears the typing indicator. -/
def handleSendResume (s : ChatState) (res : ServiceResult) : ChatState :=
  match res with
  | .ok r =>
      let responseText :=
        match r.text with
        | some t => if t.isEmpty then emptyFallback else t
        | none => emptyFallback
      { s with
          messages := s.messages ++ [{ role := Role.model, text := responseText }]
          isTyping := false }
  | .error =>
      { s with
          messages := s.messages ++ [{ role := Role.model, text := errorFallback }]
          isTyping := false }

/-- A whole `handleSend` cycle given the outcome of its one service call:
the synchronous prefix, then - only when a request was actually issued -
the continuation applied to the outcome. -/
def handleSend (s : ChatState) (res : ServiceResult) : ChatState :=
  let r := handleSendSync s
  match r.2 with
  | none => r.1
  | some _ => handleSendResume r.1 res

/-- A concrete initialized state used by witnesses. -/
def activeSample : ChatState :=
  { messages := [{ role := Role.model, text := "What would you do?" }]
    inputValue := "Tell her the truth."
    isTyping := false
    chatInstance := some
      { model := "gemini-3-flash-preview"
        systemInstruction := buildSystemInstruction Character.Priyank "Episode 3" } }

/-- A concrete initialized state whose input buffer is whitespace only. -/
def blankSample : ChatState :=
  { messages := [{ role := Role.model, text := "What would you do?" }]
    inputValue := "   "
    isTyping := false
    chatInstance := some
      { model := "gemini-3-flash-preview"
        systemInstruction := buildSystemInstruction Character.Arzoo "Episode 3" } }

/-- A concrete state before initialization: the session ref is still null
although the input buffer already holds text. -/
def uninitializedSample : ChatState :=
  { messages := []
    inputValue := "Tell her the truth."
    isTyping := false
    chatInstance := none }

/-- A concrete state with conversation history, used against `initChat`. -/
def historySample : ChatState :=
  { messages :=
      [{ role := Role.model, text := "What would you do?" },
       { role := Role.user, text := "Tell her the truth." },
       { role := Role.model, text := "Are you sure that's wise?" }]
    inputValue := ""
    isTyping := false
    chatInstance := some
      { model := "gemini-3-flash-preview"
        systemInstruction := buildSystemInstruction Character.Priyank "Episode 3" } }

/-- Evaluation helper used in closed proofs: the empty string is empty. -/
theorem string_empty_isEmpty : ("" : String).isEmpty = true := by decide

/-- C1: for a submit of an input with non-empty trimmed text against an
active session, when the service call resolves with non-empty response text
`t`, exactly one persona turn with text `t` is appended (after the user
turn), and the typing indicator is false afterwards. -/
theorem C1_success_appends_one_persona_turn (s : ChatState) (t : String)
    (hin : (jsTrim s.inputValue).isEmpty = false)
    (hses : s.chatInstance.isNone = false)
    (ht : t.isEmpty = false) :
    (handleSend s (ServiceResult.ok ⟨some t⟩)).messages
      = s.messages ++ [⟨Role.user, jsTrim s.inputValue⟩, ⟨Role.model, t⟩]
    ∧ (handleSend s (ServiceResult.ok ⟨some t⟩)).isTyping = false := by
  simp [handleSend, handleSendSync, handleSendResume, hin, hses, ht]

/-- C1 witness: the success scenario at a concrete initialized state. -/
theorem C1_success_appends_one_persona_turn_witness :
    (jsTrim activeSample.inputValue).isEmpty = false
    ∧ activeSample.chatInstance.isNone = false
    ∧ ("Are you sure that's wise?" : String).isEmpty = false
    ∧ ((handleSend activeSample (ServiceResult.ok ⟨some "Are you sure that's wise?"⟩)).messages
        = activeSample.messages
          ++ [⟨Role.user, jsTrim activeSample.inputValue⟩, ⟨Role.model, "Are you sure that's wise?"⟩]
      ∧ (handleSend activeSample (ServiceResult.ok ⟨some "Are you sure that's wise?"⟩)).isTyping = false) :=
  ⟨by decide, by decide, by decide,
    C1_success_appends_one_persona_turn activeSample "Are you sure that's wise?"
      (by decide) (by decide) (by decide)⟩

/-- C2: for a submit of an input with non-empty trimmed text against an
active session whose service call fails, exactly one request was issued,
exactly one persona turn holding the fixed error-fallback string is
appended, and the typing indicator is false afterwards. The catch branch
swallows the error (`handleSendResume` is a total function on the error
outcome) and builds no second request. -/
theorem C2_failure_appends_error_fallback (s : ChatState)
    (hin : (jsTrim s.inputValue).isEmpty = false)
    (hses : s.chatInstance.isNone = false) :
    (handleSendSync s).2 = some ⟨jsTrim s.inputValue⟩
    ∧ (handleSend s ServiceResult.error).messages
      = s.messages ++ [⟨Role.user, jsTrim s.inputValue⟩, ⟨Role.model, errorFallback⟩]
    ∧ (handleSend s ServiceResult.error).isTyping = false := by
  simp [handleSend, handleSendSync, handleSendResume, hin, hses]

/-- C2 witness: the failure scenario at a concrete initialized state. -/
theorem C2_failure_appends_error_fallback_witness :
    (jsTrim activeSample.inputValue).isEmpty = false
    ∧ activeSample.chatInstance.isNone = false
    ∧ ((handleSendSync activeSample).2 = some ⟨jsTrim activeSample.inputValue⟩
      ∧ (handleSend activeSample ServiceResult.error).messages
        = activeSample.messages
          ++ [⟨Role.user, jsTrim activeSample.inputValue⟩, ⟨Role.model, errorFallback⟩]
      ∧ (handleSend activeSample ServiceResult.error).isTyping = false) :=
  ⟨by decide, by decide,
    C2_failure_appends_error_fallback activeSample (by decide) (by decide)⟩

/-- C3: when the trimmed input is empty the guard fires: the state
(transcript, typing indicator, input buffer) is unchanged and no request
is issued, whatever the service would have answered. -/
theorem C3_blank_input_noop (s : ChatState) (res : ServiceResult)
    (h : (jsTrim s.inputValue).isEmpty = true) :
    handleSendSync s = (s, none) ∧ handleSend s res = s := by
  constructor
  · simp [handleSendSync, h]
  · simp [handleSend, handleSendSync, h]

/-- C3 witness: a whitespace-only input "   " at an initialized state. -/
theorem C3_blank_input_noop_witness :
    (jsTrim (blankSample.inputValue)).isEmpty = true
    ∧ (handleSendSync blankSample = (blankSample, none)
      ∧ handleSend blankSample ServiceResult.error = blankSample) :=
  ⟨by decide, C3_blank_input_noop blankSample ServiceResult.error (by decide)⟩

/-- C4 counterexample: the claim omits the active-session precondition.
With non-empty trimmed input "hi" but `chatInstance` still null (before
initialization has assigned a session), submit appends nothing and sets
no typing indicator: the guard makes it a no-op. -/
theorem C4_counterexample :
    ¬ ((handleSendSync
          { messages := [], inputValue := "hi", isTyping := false, chatInstance := none }).1.messages
        = ([] : List Turn) ++ [⟨Role.user, jsTrim "hi"⟩]
      ∧ (handleSendSync
          { messages := [], inputValue := "hi", isTyping := false, chatInstance := none }).1.isTyping
        = true) := by
  decide

/-- C4 (amended): for every input whose trimmed text is non-empty, issued
against an active session, the synchronous prefix of submit (everything
before the awaited service call) appends the user turn with the trimmed
text, clears the input buffer and sets the typing indicator to true —
independently of how the service call later resolves. -/
theorem C4_sync_appends_user_turn (s : ChatState)
    (hin : (jsTrim s.inputValue).isEmpty = false)
    (hses : s.chatInstance.isNone = false) :
    (handleSendSync s).1.messages = s.messages ++ [⟨Role.user, jsTrim s.inputValue⟩]
    ∧ (handleSendSync s).1.inputValue = ""
    ∧ (handleSendSync s).1.isTyping = true := by
  simp [handleSendSync, hin, hses]

/-- C4 witness: the synchronous prefix at a concrete initialized state. -/
theorem C4_sync_appends_user_turn_witness :
    (jsTrim activeSample.inputValue).isEmpty = false
    ∧ activeSample.chatInstance.isNone = false
    ∧ ((handleSendSync activeSample).1.messages
        = activeSample.messages ++ [⟨Role.user, jsTrim activeSample.inputValue⟩]
      ∧ (handleSendSync activeSample).1.inputValue = ""
      ∧ (handleSendSync activeSample).1.isTyping = true) :=
  ⟨by decide, by decide,
    C4_sync_appends_user_turn activeSample (by decide) (by decide)⟩

/-- C5: after `initChat` runs with hook H (the effect body executed on
mount and after any change of `character`, `episodeLabel` or
`initialHook`), the transcript is exactly the one-element sequence with
the persona turn H — an unconditional reset discarding every prior turn,
whatever state `s` held before. -/
theorem C5_init_resets_transcript (character : Character)
    (episodeLabel initialHook : String) (s : ChatState) :
    (initChat character episodeLabel initialHook s).messages
      = [⟨Role.model, initialHook⟩] := rfl

/-- C6: for a submit against an active session whose service call resolves
but whose response text is absent or empty, the appended persona turn holds
the fixed filler string; this goes through the success branch (the filler
differs from the error fallback) and the typing indicator ends false. -/
theorem C6_empty_response_appends_filler (s : ChatState) (r : Option String)
    (hin : (jsTrim s.inputValue).isEmpty = false)
    (hses : s.chatInstance.isNone = false)
    (hr : r = none ∨ r = some "") :
    ((handleSend s (ServiceResult.ok ⟨r⟩)).messages
      = s.messages ++ [⟨Role.user, jsTrim s.inputValue⟩, ⟨Role.model, emptyFallback⟩]
    ∧ (handleSend s (ServiceResult.ok ⟨r⟩)).isTyping = false)
    ∧ emptyFallback ≠ errorFallback := by
  refine ⟨?_, by decide⟩
  rcases hr with hr | hr <;> subst hr <;>
    simp [handleSend, handleSendSync, handleSendResume, hin, hses, string_empty_isEmpty]

/-- C6 witness: an absent response text at a concrete initialized state. -/
theorem C6_empty_response_appends_filler_witness :
    (jsTrim activeSample.inputValue).isEmpty = false
    ∧ activeSample.chatInstance.isNone = false
    ∧ ((none : Option String) = none ∨ (none : Option String) = some "")
    ∧ (((handleSend activeSample (ServiceResult.ok ⟨none⟩)).messages
        = activeSample.messages
          ++ [⟨Role.user, jsTrim activeSample.inputValue⟩, ⟨Role.model, emptyFallback⟩]
      ∧ (handleSend activeSample (ServiceResult.ok ⟨none⟩)).isTyping = false)
      ∧ emptyFallback ≠ errorFallback) :=
  ⟨by decide, by decide, Or.inl rfl,
    C6_empty_response_appends_filler activeSample none (by decide) (by decide) (Or.inl rfl)⟩

/-- C7: a submit while no session handle exists (before initialization has
assigned one) is a silent no-op: the whole state — transcript, typing
indicator and input buffer — is unchanged and no request is issued;
`handleSendSync` is total, so no error is raised. -/
theorem C7_missing_session_noop (s : ChatState) (res : ServiceResult)
    (h : s.chatInstance = none) :
    handleSendSync s = (s, none) ∧ handleSend s res = s := by
  constructor
  · simp [handleSendSync, h]
  · simp [handleSend, handleSendSync, h]

/-- C7 witness: a non-empty input submitted before a session exists. -/
theorem C7_missing_session_noop_witness :
    uninitializedSample.chatInstance = none
    ∧ (handleSendSync uninitializedSample = (uninitializedSample, none)
      ∧ handleSend uninitializedSample (ServiceResult.ok ⟨some "ignored"⟩) = uninitializedSample) :=
  ⟨rfl, C7_missing_session_noop uninitializedSample (ServiceResult.ok ⟨some "ignored"⟩) rfl⟩

/-- C8 counterexample: the claim quantifies over every operation of the
component, but re-initialization removes prior turns: a user turn present
before `initChat` is gone afterwards. -/
theorem C8_counterexample :
    (⟨Role.user, "Tell her the truth."⟩ : Turn) ∈
      (historySample).messages
    ∧ (⟨Role.user, "Tell her the truth."⟩ : Turn) ∉
      (initChat Character.Arzoo "Episode 4" "A new beginning?" historySample).messages := by
  decide

/-- C8 (amended): during submit — its synchronous prefix, its resumption,
and the whole cycle — no existing turn is mutated or removed: the prior
transcript is preserved unchanged as a prefix, so insertion order is kept
and growth is append-only. Initialization, by contrast, replaces the whole
transcript with the single hook turn. -/
theorem C8_submit_is_append_only (s : ChatState) (res : ServiceResult) :
    (∃ tail, (handleSendSync s).1.messages = s.messages ++ tail)
    ∧ (∃ tail, (handleSend s res).messages = s.messages ++ tail)
    ∧ (∃ tail, (handleSendResume s res).messages = s.messages ++ tail) := by
  refine ⟨?_, ?_, ?_⟩
  · cases hc : ((jsTrim s.inputValue).isEmpty || s.chatInstance.isNone)
    · exact ⟨[⟨Role.user, jsTrim s.inputValue⟩], by simp [handleSendSync, hc]⟩
    · exact ⟨[], by simp [handleSendSync, hc]⟩
  · cases hc : ((jsTrim s.inputValue).isEmpty || s.chatInstance.isNone)
    · cases res with
      | ok r =>
          rcases r with ⟨rt⟩
          cases rt with
          | none =>
              exact ⟨[⟨Role.user, jsTrim s.inputValue⟩, ⟨Role.model, emptyFallback⟩],
                by simp [handleSend, handleSendSync, handleSendResume, hc]⟩
          | some t =>
              exact ⟨[⟨Role.user, jsTrim s.inputValue⟩,
                      ⟨Role.model, if t.isEmpty then emptyFallback else t⟩],
                by simp [handleSend, handleSendSync, handleSendResume, hc]⟩
      | error =>
          exact ⟨[⟨Role.user, jsTrim s.inputValue⟩, ⟨Role.model, errorFallback⟩],
            by simp [handleSend, handleSendSync, handleSendResume, hc]⟩
    · exact ⟨[], by simp [handleSend, handleSendSync, hc]⟩
  · cases res with
    | ok r => exact ⟨_, rfl⟩
    | error => exact ⟨_, rfl⟩

/-- C9: whenever submit issues a request, that request carries exactly the
trimmed input text as its sole message; and the session created by
`initChat` is identical for any two hooks, so the `initialHook` never
reaches the external service — neither in a request nor in the session
configuration. -/
theorem C9_request_carries_trimmed_text_only (s : ChatState)
    (req : SendMessageParams) (character : Character)
    (episodeLabel hook1 hook2 : String) (s1 s2 : ChatState)
    (h : (handleSendSync s).2 = some req) :
    req.message = jsTrim s.inputValue
    ∧ (initChat character episodeLabel hook1 s1).chatInstance
        = (initChat character episodeLabel hook2 s2).chatInstance := by
  refine ⟨?_, rfl⟩
  by_cases hc : ((jsTrim s.inputValue).isEmpty || s.chatInstance.isNone) = true
  · simp [handleSendSync, hc] at h
  · simp [handleSendSync, hc] at h
    rw [← h]

/-- C9 witness: the one request issued at a concrete initialized state. -/
theorem C9_request_carries_trimmed_text_only_witness :
    (handleSendSync activeSample).2 = some ⟨"Tell her the truth."⟩
    ∧ ((SendMessageParams.mk "Tell her the truth.").message = jsTrim activeSample.inputValue
      ∧ (initChat Character.Priyank "Episode 3" "What would you do?" activeSample).chatInstance
          = (initChat Character.Priyank "Episode 3" "A different hook" activeSample).chatInstance) :=
  ⟨by decide,
    C9_request_carries_trimmed_text_only activeSample ⟨"Tell her the truth."⟩
      Character.Priyank "Episode 3" "What would you do?" "A different hook"
      activeSample activeSample (by decide)⟩

/-- C10: re-initialization touches only the session handle and the
transcript: the input buffer and the typing indicator come through
`initChat` unchanged, so typed text and an in-flight typing indicator
survive a change of `character`, `episodeLabel` or `initialHook`. -/
theorem C10_init_preserves_input_and_typing (character : Character)
    (episodeLabel initialHook : String) (s : ChatState) :
    (initChat character episodeLabel initialHook s).inputValue = s.inputValue
    ∧ (initChat character episodeLabel initialHook s).isTyping = s.isTyping :=
  ⟨rfl, rfl⟩

end ChatPanel
